import Mathlib

/-!
# Scene.js: camera, input and loading state

A shallow embedding of the event handlers and of the per-frame callback of
`src/site/components/threejs/Scene.js`.

Conventions of the embedding.

* JavaScript numbers are elements of a linearly ordered field `α` (exact
  arithmetic); the literals `0.002`, `0.5`, `2.4`, `2.5`, `3.4` are written as the
  fractions `1/500`, `1/2`, `12/5`, `5/2`, `17/5`.
* `Math.PI / 3`, `Math.sin` and `Math.cos` are library values: the definitions take
  them as arguments (`PITCH_LIMIT`, `sin`, `cos`); the theorems instantiate them
  with `Real.pi / 3`, `Real.sin` and `Real.cos`.
* A React ref or state cell is a field of an explicit state record; a handler is a
  function from the state before the event to the state after it. The props a
  handler reads (`hasEnteredNeighborhood`, `isLoading`) are arguments: the values
  captured by the closure that is called.
* Calls on the browser (`exitPointerLock`, `requestPointerLock`, `console.log`)
  are recorded as a list of effects, in program order.
-/

namespace Scene

/-! ## Keyboard: `moveState`, `handleKeyDown`, `handleKeyUp` (lines 52-60, 178-232) -/

/-- The `moveState` record of line 52. -/
structure MoveState where
  w : Bool
  a : Bool
  s : Bool
  d : Bool
  shift : Bool
  space : Bool
  escape : Bool
deriving DecidableEq, Repr

/-- Handler `handleKeyDown` (lines 178-205): `code` is `event.code`, `prev` the state the
functional updater of `setMoveState` receives. -/
def handleKeyDown (hasEnteredNeighborhood isLoading : Bool) (code : String)
    (prev : MoveState) : MoveState :=
  if !hasEnteredNeighborhood || isLoading then prev
  else if code = "KeyW" then { prev with w := true }
  else if code = "KeyA" then { prev with a := true }
  else if code = "KeyS" then { prev with s := true }
  else if code = "KeyD" then { prev with d := true }
  else if code = "ShiftLeft" ∨ code = "ShiftRight" then { prev with shift := true }
  else if code = "Space" then { prev with space := true }
  else if code = "Escape" then prev
  else prev

/-- Handler `handleKeyUp` (lines 207-232): no guard on the entry or loading state. -/
def handleKeyUp (code : String) (prev : MoveState) : MoveState :=
  if code = "KeyW" then { prev with w := false }
  else if code = "KeyA" then { prev with a := false }
  else if code = "KeyS" then { prev with s := false }
  else if code = "KeyD" then { prev with d := false }
  else if code = "ShiftLeft" ∨ code = "ShiftRight" then { prev with shift := false }
  else if code = "Space" then { prev with space := false }
  else if code = "Escape" then prev
  else prev

/-! ## Pointer capture: `handleClick` (lines 114-131) -/

/-- A DOM element, as far as `closest` with the selector
`[data-ui-element="true"]` looks at it: the value of its `data-ui-element`
attribute, `none` when the attribute is absent. -/
structure Element where
  dataUiElement : Option String
deriving DecidableEq, Repr

/-- The selector `[data-ui-element="true"]`. -/
def matchesUISelector (e : Element) : Bool :=
  e.dataUiElement == some "true"

/-- Call `target.closest(selector)`: `chain` is the target followed by its ancestors,
innermost first; the result is the first element that matches, `none` for `null`. -/
def closest (chain : List Element) : Option Element :=
  chain.find? matchesUISelector

/-- Calls on the browser made by a handler. -/
inductive Effect where
  | exitPointerLock
  | requestPointerLock
  | consoleLog
deriving DecidableEq, Repr

/-- Handler `handleClick` (lines 114-131). `chain` is `e.target` with its ancestors,
`canvasPresent` the truthiness of `canvas`, `lockedToCanvas` the value of
`document.pointerLockElement === canvas`, `requestThrows` whether
`canvas.requestPointerLock()` throws (the `catch` logs). -/
def handleClick (chain : List Element) (canvasPresent hasEnteredNeighborhood
    lockedToCanvas requestThrows : Bool) : List Effect :=
  match closest chain with
  | some _ => [Effect.exitPointerLock]
  | none =>
    if canvasPresent && hasEnteredNeighborhood && !lockedToCanvas then
      if requestThrows then [Effect.requestPointerLock, Effect.consoleLog]
      else [Effect.requestPointerLock]
    else []

/-! ## Asset readiness: `handleAssetLoaded` (lines 31-32, 352-362) -/

/-- A JavaScript object with boolean values: its own keys in insertion order. -/
abbrev BoolObj := List (String × Bool)

/-- The assignment `obj[key] = v`: overwrite an existing key in place, append a new one. -/
def BoolObj.assign : BoolObj → String → Bool → BoolObj
  | [], key, v => [(key, v)]
  | (k, b) :: rest, key, v =>
    if k = key then (k, v) :: rest else (k, b) :: BoolObj.assign rest key v

/-- Test `Object.values(obj).every(Boolean)`. -/
def BoolObj.everyTrue (obj : BoolObj) : Bool :=
  (obj.map Prod.snd).all id

/-- The cells `handleAssetLoaded` writes. `assetsLoadedRef` and `fadeTimeRef` are
the refs of lines 31-32 (`none` is `null`). `loadingFlag` is the loading flag owned
by the parent, the cell `setIsLoading` writes; the handler does not read it: it
reads the prop `isLoading` its closure captured. `completions` is a ghost counter
of the executions of the body of the `if` of line 357. -/
structure LoadState where
  assetsLoadedRef : BoolObj
  loadingFlag : Bool
  fadeTimeRef : Option Nat
  completions : Nat
deriving DecidableEq, Repr

/-- The state at mount, with the loading flag `true`. -/
def LoadState.init : LoadState :=
  { assetsLoadedRef := [("texture", false), ("map", false), ("player", false)]
    loadingFlag := true
    fadeTimeRef := none
    completions := 0 }

/-- Handler `handleAssetLoaded` (lines 352-362). `isLoading` is the prop of line 23
as captured by the closure that is called: `setIsLoading(false)` writes the
parent's flag and does not change it. `dateNow` is the value `Date.now()` returns. -/
def handleAssetLoaded (isLoading : Bool) (assetType : String) (dateNow : Nat)
    (s : LoadState) : LoadState :=
  let assets := s.assetsLoadedRef.assign assetType true
  let allLoaded := assets.everyTrue
  if allLoaded && isLoading then
    { assetsLoadedRef := assets
      loadingFlag := false
      fadeTimeRef := some dateNow
      completions := s.completions + 1 }
  else { s with assetsLoadedRef := assets }

/-- One call of `handleAssetLoaded`: the value of `isLoading` in the closure that
is called, the asset class, and the clock value at the call. -/
structure LoadCall where
  isLoading : Bool
  assetType : String
  dateNow : Nat
deriving DecidableEq, Repr

/-- A sequence of `handleAssetLoaded` calls, in order. -/
def runAssetLoaded (calls : List LoadCall) (s : LoadState) : LoadState :=
  calls.foldl (fun st c => handleAssetLoaded c.isLoading c.assetType c.dateNow st) s

/-- The three asset classes of the render tree (lines 384-390). -/
def assetClasses : List String := ["texture", "map", "player"]

/-- Class `k` occurs among the reported ones. -/
def reported (k : String) (calls : List LoadCall) : Bool :=
  calls.any (fun c => c.assetType == k)

/-- Every one of the three classes occurs among the reported ones. -/
def allReported (calls : List LoadCall) : Bool :=
  assetClasses.all (fun k => reported k calls)

/-! ## Mouse look: `rotationRef`, `pitchRef`, `handleMouseMove` (lines 44-49, 102-111) -/

section Numeric

variable {α : Type} [LinearOrderedField α]

/-- The movement fields of a `mousemove` event; `none` is `undefined`. -/
structure MouseEvent (α : Type) where
  movementX : Option α
  mozMovementX : Option α
  webkitMovementX : Option α
  movementY : Option α
  mozMovementY : Option α
  webkitMovementY : Option α

/-- The operator `a || b` on values that are a number or `undefined`: `undefined`
and `0` are falsy. -/
def jsOr (a b : Option α) : Option α :=
  match a with
  | some x => if x = 0 then b else some x
  | none => b

/-- The tail `a || 0` of the chains of lines 104-105. -/
def jsOrZero (a : Option α) : α :=
  match a with
  | some x => if x = 0 then 0 else x
  | none => 0

/-- The refs `rotationRef` (yaw) and `pitchRef` (pitch). -/
structure Orientation (α : Type) where
  rotationRef : α
  pitchRef : α

/-- The constant `MOUSE_SENSITIVITY = 0.002`. -/
def MOUSE_SENSITIVITY : α := 1 / 500

/-- Handler `handleMouseMove` (lines 102-111). `PITCH_LIMIT` is the value of
`Math.PI / 3`, `lockedToCanvas` the value of `document.pointerLockElement === canvas`. -/
def handleMouseMove (PITCH_LIMIT : α) (hasEnteredNeighborhood lockedToCanvas : Bool)
    (e : MouseEvent α) (o : Orientation α) : Orientation α :=
  if hasEnteredNeighborhood && lockedToCanvas then
    let movementX := jsOrZero (jsOr (jsOr e.movementX e.mozMovementX) e.webkitMovementX)
    let movementY := jsOrZero (jsOr (jsOr e.movementY e.mozMovementY) e.webkitMovementY)
    let rotation := o.rotationRef - movementX * MOUSE_SENSITIVITY
    let pitch := o.pitchRef + movementY * MOUSE_SENSITIVITY
    { rotationRef := rotation
      pitchRef := max (-PITCH_LIMIT) (min PITCH_LIMIT pitch) }
  else o

/-- One delivered `mousemove`: the entry flag and the pointer-lock test at the time
of the event, and the event. -/
structure MouseStep (α : Type) where
  hasEnteredNeighborhood : Bool
  lockedToCanvas : Bool
  event : MouseEvent α

/-- A finite sequence of `mousemove` events, in order of delivery. -/
def runMouseMoves (PITCH_LIMIT : α) (steps : List (MouseStep α)) (o : Orientation α) :
    Orientation α :=
  steps.foldl
    (fun st m => handleMouseMove PITCH_LIMIT m.hasEnteredNeighborhood m.lockedToCanvas m.event st)
    o

/-! ## Frame callback: clock, easing, throttle, camera (lines 74-95, 245-349) -/

/-- A `THREE.Vector3` (also used for the three Euler angles of a rotation). -/
structure Vec3 (α : Type) where
  x : α
  y : α
  z : α

/-- Library function `THREE.MathUtils.lerp(x, y, t)`: `(1 - t) * x + t * y`. -/
def lerp (x y t : α) : α := (1 - t) * x + t * y

/-- Library method `target.lerpVectors(v1, v2, alpha)`: the value stored in `target`,
`v1 + (v2 - v1) * alpha` in each coordinate. -/
def Vec3.lerpVectors (v1 v2 : Vec3 α) (alpha : α) : Vec3 α :=
  { x := v1.x + (v2.x - v1.x) * alpha
    y := v1.y + (v2.y - v1.y) * alpha
    z := v1.z + (v2.z - v1.z) * alpha }

/-- The object `containerRef.current`: its position and its Euler rotation. -/
structure Container (α : Type) where
  position : Vec3 α
  rotation : Vec3 α

/-- The camera, as far as the frame callback writes it: `position`, the target of
the last `camera.lookAt` call, and `fov`. -/
structure Camera (α : Type) where
  position : Vec3 α
  lookAt : Vec3 α
  fov : α

/-- The value `cameraSettings.start.position`. -/
def startPosition : Vec3 α := { x := 2, y := 12 / 5, z := 1 }

/-- The value `cameraSettings.start.lookAt`. -/
def startLookAt : Vec3 α := { x := -(1 / 2), y := 5 / 2, z := 0 }

/-- The value `cameraSettings.start.fov`. -/
def startFov : α := 45

/-- The value `cameraSettings.end.fov`. -/
def endFov : α := 75

/-- The vector `gameplayLookAtOffset`. -/
def gameplayLookAtOffset : Vec3 α := { x := 0, y := 2, z := 0 }

/-- The constant `CAMERA_UPDATE_INTERVAL = 1000 / 60`. -/
def CAMERA_UPDATE_INTERVAL : α := 1000 / 60

/-- The cells the frame callback reads and writes. `startTimeRef` is `null`
(`none`) or a `Date.now()` value; `containerRef` is `containerRef.current`,
`none` when it is `null`. -/
structure FrameState (α : Type) where
  startTimeRef : Option α
  lastCameraUpdate : α
  containerRef : Option (Container α)
  camera : Camera α

/-- Line 250, `if (!startTimeRef.current) startTimeRef.current = Date.now()`: the
value of `startTimeRef.current` after the statement (`null` and `0` are falsy). -/
def latchStartTime (startTimeRef : Option α) (dateNow : α) : α :=
  match startTimeRef with
  | some t => if t = 0 then dateNow else t
  | none => dateNow

/-- Line 251, `elapsedTime`, in seconds. -/
def elapsedTime (startTime dateNow : α) : α := (dateNow - startTime) / 1000

/-- Line 252, `progress`. -/
def progress (startTime dateNow : α) : α := min (elapsedTime startTime dateNow) 1

/-- Lines 255-257, `eased` as a function of `progress`. -/
def eased (p : α) : α :=
  if p < 1 / 2 then 4 * p * p * p else 1 - (-2 * p + 2) ^ 3 / 2

/-- The value of the local `eased` in a frame callback entered with the cell
`startTimeRef` and the clock value `dateNow`. -/
def frameEased (startTimeRef : Option α) (dateNow : α) : α :=
  eased (progress (latchStartTime startTimeRef dateNow) dateNow)

/-- How a frame callback ends: it returns, or it throws a `TypeError` on reading
a property of `null`; in both cases with the state it leaves behind. -/
inductive Outcome (α : Type) where
  | returned (st : FrameState α)
  | threw (st : FrameState α)

/-- The state a frame callback leaves behind. -/
def Outcome.state : Outcome α → FrameState α
  | Outcome.returned st => st
  | Outcome.threw st => st

/-- The callback of `useFrame` (lines 249-349). `sin` and `cos` are `Math.sin` and
`Math.cos`, `dateNow` the value of `Date.now()` (read twice, lines 250-251),
`perfNow` the value of `performance.now()`. -/
def useFrame (sin cos : α → α) (hasEnteredNeighborhood isLoading : Bool)
    (dateNow perfNow : α) (st : FrameState α) : Outcome α :=
  let startTime := latchStartTime st.startTimeRef dateNow
  let st1 : FrameState α := { st with startTimeRef := some startTime }
  let progress := progress startTime dateNow
  let eased := eased progress
  let shouldUpdateCamera : Bool := decide (perfNow - st.lastCameraUpdate ≥ CAMERA_UPDATE_INTERVAL)
  if hasEnteredNeighborhood && !isLoading then Outcome.returned st1
  else if shouldUpdateCamera then
    let st2 : FrameState α := { st1 with lastCameraUpdate := perfNow }
    if hasEnteredNeighborhood && !isLoading then
      let fov := lerp startFov endFov eased
      match st2.containerRef with
      | none => Outcome.threw { st2 with camera := { st2.camera with fov := fov } }
      | some c =>
        if progress = 1 then
          let cameraAngle := c.rotation.y
          let cameraPos : Vec3 α :=
            { x := c.position.x - sin cameraAngle * 6
              y := c.position.y + 3
              z := c.position.z - cos cameraAngle * 6 }
          let lookAtTarget : Vec3 α :=
            { x := c.position.x + sin cameraAngle * gameplayLookAtOffset.z
              y := c.position.y + gameplayLookAtOffset.y
              z := c.position.z + cos cameraAngle * gameplayLookAtOffset.z }
          Outcome.returned
            { st2 with camera := { position := cameraPos, lookAt := lookAtTarget, fov := fov } }
        else
          let approachPosition : Vec3 α :=
            { x := c.position.x - sin c.rotation.y * 4
              y := c.position.y + 4
              z := c.position.z - cos c.rotation.y * 4 }
          let currentPosition := Vec3.lerpVectors startPosition approachPosition eased
          let endLookAt : Vec3 α :=
            { x := c.position.x, y := c.position.y + 1 / 2, z := c.position.z }
          let currentLookAt := Vec3.lerpVectors startLookAt endLookAt eased
          Outcome.returned
            { st2 with
              camera := { position := currentPosition, lookAt := currentLookAt, fov := fov } }
    else
      match st2.containerRef with
      | none => Outcome.threw st2
      | some _ =>
        let c : Container α :=
          { position := { x := 0, y := 1, z := 0 }, rotation := { x := 0, y := 0, z := 0 } }
        let exitPosition : Vec3 α :=
          { x := -sin c.rotation.y * 4, y := 17 / 5, z := -cos c.rotation.y * 4 }
        let currentPosition := Vec3.lerpVectors exitPosition startPosition eased
        let exitLookAt : Vec3 α := { x := 0, y := 2, z := 0 }
        let currentLookAt := Vec3.lerpVectors exitLookAt startLookAt eased
        Outcome.returned
          { st2 with
            containerRef := some c
            camera := { st2.camera with position := currentPosition, lookAt := currentLookAt } }
  else Outcome.returned st1

/-- The arguments of one frame callback: the two props it closes over and the
two clock readings. -/
structure FrameInput (α : Type) where
  hasEnteredNeighborhood : Bool
  isLoading : Bool
  dateNow : α
  perfNow : α

/-- A history of frame callbacks, in order; each starts from the state the one
before it left behind. -/
def runFrames (sin cos : α → α) (frames : List (FrameInput α)) (st : FrameState α) :
    FrameState α :=
  frames.foldl
    (fun s f => (useFrame sin cos f.hasEnteredNeighborhood f.isLoading f.dateNow f.perfNow s).state)
    st

/-- The cells at mount (lines 30, 95, 175, 245): `startTimeRef` is `null`,
`lastCameraUpdate` is `0`, the container is a fresh `THREE.Object3D` at the
origin; the camera is the one `useThree` hands over. -/
def mountState (camera : Camera α) : FrameState α :=
  { startTimeRef := none
    lastCameraUpdate := 0
    containerRef := some
      { position := { x := 0, y := 0, z := 0 }, rotation := { x := 0, y := 0, z := 0 } }
    camera := camera }

/-- A camera for the examples: at `(0, 0, 5)`, looking at the origin, with a field
of view of 50 degrees. -/
def sampleCamera : Camera α :=
  { position := { x := 0, y := 0, z := 5 }, lookAt := { x := 0, y := 0, z := 0 }, fov := 50 }

end Numeric

/-! ## Theorems: keyboard -/

/-- C2. For each recognised key code, `handleKeyUp` stores `false` in that key's
flag and leaves the six other flags as they were, from every prior `moveState`;
the handler reads neither `hasEnteredNeighborhood` nor `isLoading`. So a key
pressed (under any entry and loading state) and then released ends `false`. -/
theorem handleKeyUp_clears_flag (m : MoveState) :
    handleKeyUp "KeyW" m = { m with w := false } ∧
    handleKeyUp "KeyA" m = { m with a := false } ∧
    handleKeyUp "KeyS" m = { m with s := false } ∧
    handleKeyUp "KeyD" m = { m with d := false } ∧
    handleKeyUp "ShiftLeft" m = { m with shift := false } ∧
    handleKeyUp "ShiftRight" m = { m with shift := false } ∧
    handleKeyUp "Space" m = { m with space := false } ∧
    (∀ entered loading : Bool,
      handleKeyUp "KeyW" (handleKeyDown entered loading "KeyW" m) = { m with w := false } ∧
      handleKeyUp "KeyA" (handleKeyDown entered loading "KeyA" m) = { m with a := false } ∧
      handleKeyUp "KeyS" (handleKeyDown entered loading "KeyS" m) = { m with s := false } ∧
      handleKeyUp "KeyD" (handleKeyDown entered loading "KeyD" m) = { m with d := false } ∧
      handleKeyUp "ShiftLeft" (handleKeyDown entered loading "ShiftLeft" m)
        = { m with shift := false } ∧
      handleKeyUp "ShiftRight" (handleKeyDown entered loading "ShiftRight" m)
        = { m with shift := false } ∧
      handleKeyUp "Space" (handleKeyDown entered loading "Space" m)
        = { m with space := false }) := by
  refine ⟨by simp [handleKeyUp], by simp [handleKeyUp], by simp [handleKeyUp],
    by simp [handleKeyUp], by simp [handleKeyUp], by simp [handleKeyUp],
    by simp [handleKeyUp], ?_⟩
  intro entered loading
  cases entered <;> cases loading <;> simp [handleKeyUp, handleKeyDown]

/-! ## Theorems: pointer capture -/

/-- A chain with a tagged element has a closest tagged element. -/
theorem closest_isSome_of_tagged (chain : List Element)
    (h : ∃ e ∈ chain, e.dataUiElement = some "true") : (closest chain).isSome = true := by
  obtain ⟨e, he, htag⟩ := h
  simp only [closest, List.find?_isSome]
  exact ⟨e, he, by simp [matchesUISelector, htag]⟩

/-- C8. A click whose target is, or lies inside, an element tagged
`data-ui-element="true"` makes `handleClick` call `exitPointerLock` exactly once
and nothing else (no `requestPointerLock`), whatever the entry flag and the
pointer-lock state are. -/
theorem handleClick_ui_exits_pointer_lock (chain : List Element)
    (canvasPresent hasEnteredNeighborhood lockedToCanvas requestThrows : Bool)
    (h : ∃ e ∈ chain, e.dataUiElement = some "true") :
    handleClick chain canvasPresent hasEnteredNeighborhood lockedToCanvas requestThrows
      = [Effect.exitPointerLock] := by
  have hc := closest_isSome_of_tagged chain h
  unfold handleClick
  cases hcl : closest chain with
  | none => simp [hcl] at hc
  | some e => rfl

/-- C8 at a click on a plain element nested in a tagged one, with the pointer
locked to the canvas. -/
theorem handleClick_ui_exits_pointer_lock_witness :
    handleClick [⟨none⟩, ⟨some "true"⟩, ⟨none⟩] true true true false
      = [Effect.exitPointerLock] :=
  handleClick_ui_exits_pointer_lock [⟨none⟩, ⟨some "true"⟩, ⟨none⟩] true true true false
    ⟨⟨some "true"⟩, by simp, rfl⟩

/-! ## Theorems: asset readiness -/

/-- The assignment of line 353 on the object with its three keys. -/
theorem assign_three (t m p : Bool) (k : String) (hk : k ∈ assetClasses) :
    BoolObj.assign [("texture", t), ("map", m), ("player", p)] k true
      = [("texture", t || (k == "texture")), ("map", m || (k == "map")),
          ("player", p || (k == "player"))] := by
  simp only [assetClasses, List.mem_cons, List.mem_singleton, List.not_mem_nil, or_false] at hk
  rcases hk with rfl | rfl | rfl <;> simp [BoolObj.assign]

/-- The test of line 356 on the object with its three keys. -/
theorem everyTrue_three (t m p : Bool) :
    BoolObj.everyTrue [("texture", t), ("map", m), ("player", p)] = (t && m && p) := by
  simp [BoolObj.everyTrue, Bool.and_assoc]

/-- The coverage test, class by class. -/
theorem allReported_eq (calls : List LoadCall) :
    allReported calls
      = (reported "texture" calls && reported "map" calls && reported "player" calls) := by
  simp [allReported, assetClasses, Bool.and_assoc]

/-- The coverage test after one more call. -/
theorem reported_cons (k : String) (c : LoadCall) (rest : List LoadCall) :
    reported k (c :: rest) = ((c.assetType == k) || reported k rest) := by
  simp [reported]

/-- The coverage test on two runs of calls. -/
theorem reported_append (k : String) (xs ys : List LoadCall) :
    reported k (xs ++ ys) = (reported k xs || reported k ys) := by
  simp [reported]

/-- One call on the three-key object. -/
theorem handleAssetLoaded_three (t m p flag : Bool) (fade : Option Nat) (n : Nat)
    (c : LoadCall) (hc : c.assetType ∈ assetClasses) :
    handleAssetLoaded c.isLoading c.assetType c.dateNow
        { assetsLoadedRef := [("texture", t), ("map", m), ("player", p)]
          loadingFlag := flag, fadeTimeRef := fade, completions := n }
      = if ((t || (c.assetType == "texture")) && (m || (c.assetType == "map")) &&
            (p || (c.assetType == "player")) && c.isLoading)
        then
          { assetsLoadedRef := [("texture", t || (c.assetType == "texture")),
              ("map", m || (c.assetType == "map")), ("player", p || (c.assetType == "player"))]
            loadingFlag := false, fadeTimeRef := some c.dateNow, completions := n + 1 }
        else
          { assetsLoadedRef := [("texture", t || (c.assetType == "texture")),
              ("map", m || (c.assetType == "map")), ("player", p || (c.assetType == "player"))]
            loadingFlag := flag, fadeTimeRef := fade, completions := n } := by
  simp only [handleAssetLoaded, assign_three t m p c.assetType hc, everyTrue_three]

/-- A pure fact on nine booleans used in the induction below. -/
theorem cover_step :
    ∀ t m p a b c x y z : Bool,
      ((t || (a || x)) && (m || (b || y)) && (p || (c || z))) = false →
        ((t || a) && (m || b) && (p || c)) = false ∧
        (((t || a) || x) && ((m || b) || y) && ((p || c) || z)) = false := by
  decide

/-- While the classes seen so far do not cover the three, the loading flag, the
fade timestamp and the counter stay as they are, whatever the closures captured. -/
theorem runAssetLoaded_incomplete (calls : List LoadCall) :
    ∀ (t m p flag : Bool) (fade : Option Nat) (n : Nat),
      (∀ c ∈ calls, c.assetType ∈ assetClasses) →
      ((t || reported "texture" calls) && (m || reported "map" calls) &&
        (p || reported "player" calls)) = false →
      runAssetLoaded calls
          { assetsLoadedRef := [("texture", t), ("map", m), ("player", p)]
            loadingFlag := flag, fadeTimeRef := fade, completions := n }
        = { assetsLoadedRef :=
              [("texture", t || reported "texture" calls), ("map", m || reported "map" calls),
                ("player", p || reported "player" calls)]
            loadingFlag := flag, fadeTimeRef := fade, completions := n } := by
  induction calls with
  | nil => intro t m p flag fade n _ _; simp [runAssetLoaded, reported]
  | cons c rest ih =>
    intro t m p flag fade n hv hcov
    have hc : c.assetType ∈ assetClasses := hv c (List.mem_cons_self _ _)
    have hrest : ∀ x ∈ rest, x.assetType ∈ assetClasses := fun x hx =>
      hv x (List.mem_cons_of_mem _ hx)
    simp only [reported_cons] at hcov ⊢
    obtain ⟨h1, h2⟩ := cover_step _ _ _ _ _ _ _ _ _ hcov
    have hrec := ih _ _ _ flag fade n hrest h2
    simp only [runAssetLoaded, List.foldl_cons] at hrec ⊢
    rw [handleAssetLoaded_three t m p flag fade n c hc, h1]
    simp only [Bool.false_and, Bool.false_eq_true, if_false]
    rw [hrec]
    simp only [Bool.or_assoc]

/-- Calls through closures that captured `isLoading = false` change neither the
loading flag, nor the fade timestamp, nor the counter. -/
theorem runAssetLoaded_not_loading (calls : List LoadCall) :
    ∀ (obj : BoolObj) (flag : Bool) (fade : Option Nat) (n : Nat),
      (∀ c ∈ calls, c.isLoading = false) →
      ∃ obj2, runAssetLoaded calls
          { assetsLoadedRef := obj, loadingFlag := flag, fadeTimeRef := fade, completions := n }
        = { assetsLoadedRef := obj2, loadingFlag := flag, fadeTimeRef := fade,
            completions := n } := by
  induction calls with
  | nil => intro obj flag fade n _; exact ⟨obj, rfl⟩
  | cons c rest ih =>
    intro obj flag fade n hf
    have hc : c.isLoading = false := hf c (List.mem_cons_self _ _)
    obtain ⟨obj2, h⟩ := ih (obj.assign c.assetType true) flag fade n
      (fun x hx => hf x (List.mem_cons_of_mem _ hx))
    refine ⟨obj2, ?_⟩
    simp only [runAssetLoaded, List.foldl_cons] at h ⊢
    rw [← h]
    simp [handleAssetLoaded, hc]

/-- C3 (amended). Starting from the three flags `false` and the loading flag
`true`, a sequence of `handleAssetLoaded` calls over texture, map and player (any
order, duplicates allowed): while the calls made so far do not cover the three
classes the loading flag is still `true`, no fade timestamp is recorded and the
completion body has not run, whatever `isLoading` the closures captured; the
first call `c` that completes the coverage, through a closure with `isLoading`
`true`, runs the completion body (loading flag `false`, fade timestamp the clock
value of `c`); and after any later calls `post` made through closures that
captured `isLoading = false` (the component rendered again after
`setIsLoading(false)`) the body has still run exactly once, the loading flag is
still `false` and the fade timestamp is still that of `c`. -/
theorem loading_completes_once_when_rerendered :
    (∀ calls : List LoadCall, (∀ x ∈ calls, x.assetType ∈ assetClasses) →
      allReported calls = false →
      (runAssetLoaded calls LoadState.init).loadingFlag = true ∧
      (runAssetLoaded calls LoadState.init).fadeTimeRef = none ∧
      (runAssetLoaded calls LoadState.init).completions = 0) ∧
    (∀ (pre : List LoadCall) (c : LoadCall) (post : List LoadCall),
      (∀ x ∈ pre ++ c :: post, x.assetType ∈ assetClasses) →
      allReported pre = false → allReported (pre ++ [c]) = true →
      c.isLoading = true → (∀ x ∈ post, x.isLoading = false) →
      ((runAssetLoaded (pre ++ [c]) LoadState.init).loadingFlag = false ∧
        (runAssetLoaded (pre ++ [c]) LoadState.init).fadeTimeRef = some c.dateNow ∧
        (runAssetLoaded (pre ++ [c]) LoadState.init).completions = 1) ∧
      ((runAssetLoaded (pre ++ c :: post) LoadState.init).loadingFlag = false ∧
        (runAssetLoaded (pre ++ c :: post) LoadState.init).fadeTimeRef = some c.dateNow ∧
        (runAssetLoaded (pre ++ c :: post) LoadState.init).completions = 1)) := by
  constructor
  · intro calls hv hcov
    rw [allReported_eq] at hcov
    have h := runAssetLoaded_incomplete calls false false false true none 0 hv
      (by simpa using hcov)
    simp only [LoadState.init, h, and_self]
  · intro pre c post hv hpre hcov hcl hpost
    have hvpre : ∀ x ∈ pre, x.assetType ∈ assetClasses := fun x hx =>
      hv x (List.mem_append_left _ hx)
    have hc : c.assetType ∈ assetClasses := hv c (by simp)
    rw [allReported_eq] at hpre hcov
    have h := runAssetLoaded_incomplete pre false false false true none 0 hvpre
      (by simpa using hpre)
    have hsplit : ∀ rest : List LoadCall, runAssetLoaded (pre ++ c :: rest) LoadState.init
        = runAssetLoaded rest
          (handleAssetLoaded c.isLoading c.assetType c.dateNow
            (runAssetLoaded pre LoadState.init)) := by
      intro rest
      simp [runAssetLoaded, List.foldl_append]
    have hcov2 : ((false || reported "texture" pre || (c.assetType == "texture")) &&
        (false || reported "map" pre || (c.assetType == "map")) &&
        (false || reported "player" pre || (c.assetType == "player")) && c.isLoading)
          = true := by
      rw [hcl]
      simpa [reported_append, reported] using hcov
    have hstep : ∃ obj, handleAssetLoaded c.isLoading c.assetType c.dateNow
          (runAssetLoaded pre LoadState.init)
        = { assetsLoadedRef := obj, loadingFlag := false, fadeTimeRef := some c.dateNow
            completions := 1 } := by
      simp only [LoadState.init] at h ⊢
      rw [h, handleAssetLoaded_three _ _ _ true none 0 c hc, hcov2]
      exact ⟨_, rfl⟩
    obtain ⟨obj, hobj⟩ := hstep
    constructor
    · have := hsplit []
      simp only [runAssetLoaded, List.foldl_nil] at this hobj ⊢
      rw [this, hobj]
      simp
    · rw [hsplit post, hobj]
      obtain ⟨obj2, hd⟩ := runAssetLoaded_not_loading post obj false (some c.dateNow) 1 hpost
      rw [hd]
      simp

/-- C3 (amended) on a run where map is reported twice, player completes the three
and two more reports arrive after the component rendered again. -/
theorem loading_completes_once_when_rerendered_witness :
    ((runAssetLoaded [⟨true, "map", 5⟩, ⟨true, "map", 6⟩] LoadState.init).loadingFlag = true ∧
      (runAssetLoaded [⟨true, "map", 5⟩, ⟨true, "map", 6⟩] LoadState.init).fadeTimeRef = none ∧
      (runAssetLoaded [⟨true, "map", 5⟩, ⟨true, "map", 6⟩] LoadState.init).completions = 0) ∧
    ((runAssetLoaded ([⟨true, "map", 5⟩, ⟨true, "texture", 7⟩, ⟨true, "map", 8⟩] ++
        ⟨true, "player", 11⟩ :: [⟨false, "texture", 12⟩, ⟨false, "player", 13⟩])
        LoadState.init).loadingFlag = false ∧
      (runAssetLoaded ([⟨true, "map", 5⟩, ⟨true, "texture", 7⟩, ⟨true, "map", 8⟩] ++
        ⟨true, "player", 11⟩ :: [⟨false, "texture", 12⟩, ⟨false, "player", 13⟩])
        LoadState.init).fadeTimeRef = some 11 ∧
      (runAssetLoaded ([⟨true, "map", 5⟩, ⟨true, "texture", 7⟩, ⟨true, "map", 8⟩] ++
        ⟨true, "player", 11⟩ :: [⟨false, "texture", 12⟩, ⟨false, "player", 13⟩])
        LoadState.init).completions = 1) :=
  ⟨loading_completes_once_when_rerendered.1 [⟨true, "map", 5⟩, ⟨true, "map", 6⟩]
      (by decide) (by decide),
    (loading_completes_once_when_rerendered.2
      [⟨true, "map", 5⟩, ⟨true, "texture", 7⟩, ⟨true, "map", 8⟩] ⟨true, "player", 11⟩
      [⟨false, "texture", 12⟩, ⟨false, "player", 13⟩]
      (by decide) (by decide) (by decide) rfl (by decide)).2⟩

/-- C3 as stated fails: six calls through the closure of one render, whose
`isLoading` is `true` throughout. The three classes are covered at the fourth
call (player, clock 11); the fifth and the sixth call run the completion body
again: it has run three times and the fade timestamp is 13, not 11. -/
theorem loading_refires_counterexample :
    (runAssetLoaded
      [⟨true, "map", 5⟩, ⟨true, "texture", 7⟩, ⟨true, "map", 8⟩, ⟨true, "player", 11⟩]
      LoadState.init).fadeTimeRef = some 11 ∧
    (runAssetLoaded
      [⟨true, "map", 5⟩, ⟨true, "texture", 7⟩, ⟨true, "map", 8⟩, ⟨true, "player", 11⟩]
      LoadState.init).completions = 1 ∧
    (runAssetLoaded
      [⟨true, "map", 5⟩, ⟨true, "texture", 7⟩, ⟨true, "map", 8⟩, ⟨true, "player", 11⟩,
        ⟨true, "texture", 12⟩, ⟨true, "player", 13⟩]
      LoadState.init).fadeTimeRef = some 13 ∧
    (runAssetLoaded
      [⟨true, "map", 5⟩, ⟨true, "texture", 7⟩, ⟨true, "map", 8⟩, ⟨true, "player", 11⟩,
        ⟨true, "texture", 12⟩, ⟨true, "player", 13⟩]
      LoadState.init).completions = 3 := by
  decide

/-! ## Theorems: mouse look -/

section NumericTheorems

variable {α : Type} [LinearOrderedField α]

/-- One `mousemove` keeps the pitch within a non-negative limit. -/
theorem handleMouseMove_pitch_bounded (L : α) (hL : 0 ≤ L) (entered locked : Bool)
    (e : MouseEvent α) (o : Orientation α) (ho : -L ≤ o.pitchRef ∧ o.pitchRef ≤ L) :
    -L ≤ (handleMouseMove L entered locked e o).pitchRef ∧
      (handleMouseMove L entered locked e o).pitchRef ≤ L := by
  unfold handleMouseMove
  split
  · exact ⟨le_max_left _ _, max_le (by linarith) (min_le_left _ _)⟩
  · exact ho

/-- A sequence of `mousemove` events keeps the pitch within a non-negative limit. -/
theorem runMouseMoves_pitch_bounded (L : α) (hL : 0 ≤ L) (steps : List (MouseStep α)) :
    ∀ o : Orientation α, -L ≤ o.pitchRef ∧ o.pitchRef ≤ L →
      -L ≤ (runMouseMoves L steps o).pitchRef ∧ (runMouseMoves L steps o).pitchRef ≤ L := by
  induction steps with
  | nil => intro o ho; exact ho
  | cons m rest ih =>
    intro o ho
    simp only [runMouseMoves, List.foldl_cons]
    exact ih _ (handleMouseMove_pitch_bounded L hL _ _ _ o ho)

end NumericTheorems

/-- C1. With `PITCH_LIMIT = π/3` and the pitch `0` at the start (any yaw), after
every finite sequence of `mousemove` events, of any movement values and with any
entry flag and pointer-lock state per event, the stored pitch lies in
`[-PITCH_LIMIT, PITCH_LIMIT]`. -/
theorem pitch_within_limit (steps : List (MouseStep ℝ)) (yaw : ℝ) :
    -(Real.pi / 3) ≤
        (runMouseMoves (Real.pi / 3) steps { rotationRef := yaw, pitchRef := 0 }).pitchRef ∧
      (runMouseMoves (Real.pi / 3) steps { rotationRef := yaw, pitchRef := 0 }).pitchRef
        ≤ Real.pi / 3 := by
  have hL : (0 : ℝ) ≤ Real.pi / 3 := by positivity
  exact runMouseMoves_pitch_bounded (Real.pi / 3) hL steps _
    ⟨by simpa using hL, by simpa using hL⟩

/-! ## Theorems: clock and easing -/

section EasingTheorems

variable {α : Type} [LinearOrderedField α]

/-- The easing curve maps `[0, 1]` into `[0, 1]`. -/
theorem eased_mem_unit (p : α) (h0 : 0 ≤ p) (h1 : p ≤ 1) :
    0 ≤ eased p ∧ eased p ≤ 1 := by
  unfold eased
  split
  · rename_i h
    have hp3 : 0 ≤ p * p * p := by positivity
    have : p * p * p ≤ 1 / 2 * (1 / 2) * (1 / 2) := by
      have h2 : p ≤ 1 / 2 := le_of_lt h
      have := mul_le_mul h2 h2 h0 (by norm_num : (0 : α) ≤ 1 / 2)
      exact mul_le_mul this h2 h0 (by norm_num)
    constructor <;> nlinarith
  · have hq : 0 ≤ -2 * p + 2 := by linarith
    have hq1 : -2 * p + 2 ≤ 1 := by
      rename_i h
      have := not_lt.mp h
      linarith
    have h3 : 0 ≤ (-2 * p + 2) ^ 3 := by positivity
    have h4 : (-2 * p + 2) ^ 3 ≤ 1 := pow_le_one₀ hq hq1
    constructor <;> linarith

/-- The easing curve is non-decreasing on `[0, 1]`. -/
theorem eased_mono (p q : α) (h0 : 0 ≤ p) (hpq : p ≤ q) (h1 : q ≤ 1) :
    eased p ≤ eased q := by
  have hq0 : 0 ≤ q := le_trans h0 hpq
  have cube : ∀ a b : α, 0 ≤ a → a ≤ b → a ^ 3 ≤ b ^ 3 := fun a b ha hab =>
    pow_le_pow_left₀ ha hab 3
  unfold eased
  by_cases hp : p < 1 / 2 <;> by_cases hq : q < 1 / 2
  · simp only [hp, hq, if_true]
    have := cube p q h0 hpq
    nlinarith
  · simp only [hp, hq, if_true, if_false]
    have hq' : 1 / 2 ≤ q := not_lt.mp hq
    have h3 := cube p (1 / 2) h0 (le_of_lt hp)
    have h4 := cube (-2 * q + 2) 1 (by linarith) (by linarith)
    nlinarith
  · exact absurd (lt_of_le_of_lt hpq hq) hp
  · simp only [hp, hq, if_false]
    have := cube (-2 * q + 2) (-2 * p + 2) (by linarith) (by linarith)
    linarith

/-- The easing curve at the end of the window. -/
theorem eased_one : eased (1 : α) = 1 := by
  unfold eased
  norm_num

/-- The easing curve at the start of the window. -/
theorem eased_zero : eased (0 : α) = 0 := by
  unfold eased
  norm_num

/-- C6. For a latched start time and every clock value `now ≥ start`: `progress`
is `min((now - start)/1000, 1)` and `eased` is the piecewise cubic of the source;
both lie in `[0, 1]`, both are non-decreasing in `now`, and both are `1` for
every `now ≥ start + 1000`. -/
theorem progress_eased_bounded_monotone (start now : α) (h : start ≤ now) :
    progress start now = min ((now - start) / 1000) 1 ∧
    eased (progress start now)
      = (if progress start now < 1 / 2
          then 4 * progress start now * progress start now * progress start now
          else 1 - (-2 * progress start now + 2) ^ 3 / 2) ∧
    (0 ≤ progress start now ∧ progress start now ≤ 1) ∧
    (0 ≤ eased (progress start now) ∧ eased (progress start now) ≤ 1) ∧
    (∀ later : α, now ≤ later →
      progress start now ≤ progress start later ∧
      eased (progress start now) ≤ eased (progress start later)) ∧
    (start + 1000 ≤ now → progress start now = 1 ∧ eased (progress start now) = 1) := by
  have hp0 : ∀ t : α, start ≤ t → 0 ≤ progress start t := by
    intro t ht
    unfold progress elapsedTime
    exact le_min (div_nonneg (by linarith) (by norm_num)) zero_le_one
  have hp1 : ∀ t : α, progress start t ≤ 1 := fun t => min_le_right _ _
  have hmono : ∀ t u : α, t ≤ u → progress start t ≤ progress start u := by
    intro t u htu
    unfold progress elapsedTime
    exact min_le_min (div_le_div_of_nonneg_right (by linarith) (by norm_num)) le_rfl
  refine ⟨rfl, rfl, ⟨hp0 now h, hp1 now⟩, eased_mem_unit _ (hp0 now h) (hp1 now), ?_, ?_⟩
  · intro later hl
    exact ⟨hmono now later hl, eased_mono _ _ (hp0 now h) (hmono now later hl) (hp1 later)⟩
  · intro hfull
    have hp : progress start now = 1 := by
      unfold progress elapsedTime
      apply min_eq_right
      rw [le_div_iff₀ (by norm_num)]
      linarith
    rw [hp]
    exact ⟨rfl, eased_one⟩

end EasingTheorems

/-- C6 on rational clock values: start at 2000 ms, a frame 1500 ms later. -/
theorem progress_eased_bounded_monotone_witness :
    (2000 : ℚ) ≤ 3500 ∧ progress (2000 : ℚ) 3500 = 1 ∧
      eased (progress (2000 : ℚ) 3500) = 1 ∧
      eased (progress (2000 : ℚ) 2250) = 1 / 16 :=
  ⟨by norm_num,
    ((progress_eased_bounded_monotone (2000 : ℚ) 3500 (by norm_num)).2.2.2.2.2
      (by norm_num)).1,
    ((progress_eased_bounded_monotone (2000 : ℚ) 3500 (by norm_num)).2.2.2.2.2
      (by norm_num)).2,
    by norm_num [eased, progress, elapsedTime]⟩

/-! ## Theorems: frame callback -/

section FrameTheorems

variable {α : Type} [LinearOrderedField α]

/-- Whatever branch a frame callback takes, it leaves `startTimeRef` at the value
latched by line 250. -/
theorem useFrame_startTimeRef (sin cos : α → α) (entered loading : Bool)
    (dateNow perfNow : α) (st : FrameState α) :
    (useFrame sin cos entered loading dateNow perfNow st).state.startTimeRef
      = some (latchStartTime st.startTimeRef dateNow) := by
  by_cases h : perfNow - st.lastCameraUpdate ≥ CAMERA_UPDATE_INTERVAL <;>
    cases hc : st.containerRef <;> cases entered <;> cases loading <;>
    simp [useFrame, h, hc, Outcome.state]

/-- A start time that is latched (not `null`, not `0`) is kept by line 250. -/
theorem latchStartTime_latched (t dateNow : α) (ht : t ≠ 0) :
    latchStartTime (some t) dateNow = t := by
  simp [latchStartTime, ht]

/-- A latched start time survives every history of frames. -/
theorem runFrames_startTimeRef_latched (sin cos : α → α) (t : α) (ht : t ≠ 0)
    (frames : List (FrameInput α)) :
    ∀ st : FrameState α, st.startTimeRef = some t →
      (runFrames sin cos frames st).startTimeRef = some t := by
  induction frames with
  | nil => intro st h; exact h
  | cons f rest ih =>
    intro st h
    simp only [runFrames, List.foldl_cons]
    apply ih
    rw [useFrame_startTimeRef, h, latchStartTime_latched t _ ht]

/-- C7 (amended). A frame callback evaluated while `hasEnteredNeighborhood` is
`true` and `isLoading` is `false` returns, for every clock reading and throttle
state, with the camera (position, look-at, field of view), the container and the
throttle timestamp unchanged; of the cells it writes only `startTimeRef`, which
line 250 latches to `Date.now()` when it is still unset; when the start time is
already latched the state after the frame is the state before it. -/
theorem handoff_writes_only_clock_latch (sin cos : α → α) (dateNow perfNow : α)
    (st : FrameState α) :
    useFrame sin cos true false dateNow perfNow st
      = Outcome.returned
        { st with startTimeRef := some (latchStartTime st.startTimeRef dateNow) } ∧
    (∀ t : α, st.startTimeRef = some t → t ≠ 0 →
      useFrame sin cos true false dateNow perfNow st = Outcome.returned st) := by
  refine ⟨by simp [useFrame], ?_⟩
  intro t h ht
  cases st with
  | mk s l c cam =>
    simp only at h
    subst h
    simp [useFrame, latchStartTime_latched t dateNow ht]

end FrameTheorems

/-- C7 (amended) on a state whose start time was latched at 1000 ms. -/
theorem handoff_writes_only_clock_latch_witness :
    useFrame Real.sin Real.cos true false 5000 100
        { (mountState sampleCamera : FrameState ℝ) with startTimeRef := some 1000 }
      = Outcome.returned
        { (mountState sampleCamera : FrameState ℝ) with startTimeRef := some 1000 } :=
  (handoff_writes_only_clock_latch Real.sin Real.cos (5000 : ℝ) 100
    { (mountState sampleCamera : FrameState ℝ) with startTimeRef := some 1000 }).2
    1000 rfl (by norm_num)

/-- C7 as stated fails: on the first frame callback of the session, evaluated
while `hasEnteredNeighborhood` is `true` and `isLoading` is `false`, the clock's
`startTimeRef` is `null` before the frame and `5000` after it. -/
theorem handoff_no_writes_counterexample :
    (mountState sampleCamera : FrameState ℝ).startTimeRef = none ∧
    (useFrame Real.sin Real.cos true false 5000 100
      (mountState sampleCamera : FrameState ℝ)).state.startTimeRef = some 5000 ∧
    (useFrame Real.sin Real.cos true false 5000 100
      (mountState sampleCamera : FrameState ℝ)).state ≠ mountState sampleCamera := by
  have h : (useFrame Real.sin Real.cos true false 5000 100
      (mountState sampleCamera : FrameState ℝ)).state.startTimeRef = some 5000 := by
    rw [useFrame_startTimeRef]
    simp [mountState, latchStartTime]
  refine ⟨rfl, h, ?_⟩
  intro heq
  rw [heq] at h
  simp [mountState] at h

section FrameTheorems2

variable {α : Type} [LinearOrderedField α]

/-- No branch of the frame callback that can run writes the field of view. -/
theorem useFrame_fov (sin cos : α → α) (entered loading : Bool)
    (dateNow perfNow : α) (st : FrameState α) :
    (useFrame sin cos entered loading dateNow perfNow st).state.camera.fov = st.camera.fov := by
  by_cases h : perfNow - st.lastCameraUpdate ≥ CAMERA_UPDATE_INTERVAL <;>
    cases hc : st.containerRef <;> cases entered <;> cases loading <;>
    simp [useFrame, h, hc, Outcome.state]

/-- C4 (amended). A frame callback evaluated while `hasEnteredNeighborhood` and
`isLoading` are both `true` does not write the field of view: in every throttle
state the field of view after the frame is the one before it, and with the
container present the callback returns. The assignment
`camera.fov = lerp(45, 75, eased)` sits behind the early return of line 265 and
under the condition `hasEnteredNeighborhood && !isLoading`, so no frame runs it. -/
theorem transition_frame_keeps_fov (sin cos : α → α) (dateNow perfNow : α)
    (st : FrameState α) :
    (useFrame sin cos true true dateNow perfNow st).state.camera.fov = st.camera.fov ∧
    (∀ c : Container α, st.containerRef = some c →
      ∃ st2, useFrame sin cos true true dateNow perfNow st = Outcome.returned st2 ∧
        st2.camera.fov = st.camera.fov) := by
  refine ⟨useFrame_fov sin cos true true dateNow perfNow st, ?_⟩
  intro c hc
  by_cases h : perfNow - st.lastCameraUpdate ≥ CAMERA_UPDATE_INTERVAL <;>
    simp [useFrame, h, hc]

end FrameTheorems2

/-- C4 (amended) on the frame one second after the clock start. -/
theorem transition_frame_keeps_fov_witness :
    ∃ st2, useFrame Real.sin Real.cos true true 2000 100
        { (mountState sampleCamera : FrameState ℝ) with startTimeRef := some 1000 }
        = Outcome.returned st2 ∧
      st2.camera.fov = (sampleCamera : Camera ℝ).fov :=
  (transition_frame_keeps_fov Real.sin Real.cos (2000 : ℝ) 100
    { (mountState sampleCamera : FrameState ℝ) with startTimeRef := some 1000 }).2 _ rfl

/-- C4 as stated fails: with the clock started at 1000 ms, `hasEnteredNeighborhood`
and `isLoading` both `true` and the throttle interval elapsed, the frames at 0 s
and at 1.0 s after the clock start leave the field of view at the 50 it had,
where `lerp(45, 75, eased)` is 45 and 75. -/
theorem transition_fov_counterexample :
    (useFrame Real.sin Real.cos true true 1000 100
      { (mountState sampleCamera : FrameState ℝ) with
        startTimeRef := some 1000 }).state.camera.fov
        = 50 ∧
    lerp (startFov : ℝ) endFov (frameEased (some 1000) 1000) = 45 ∧
    (useFrame Real.sin Real.cos true true 2000 100
      { (mountState sampleCamera : FrameState ℝ) with
        startTimeRef := some 1000 }).state.camera.fov
        = 50 ∧
    lerp (startFov : ℝ) endFov (frameEased (some 1000) 2000) = 75 := by
  refine ⟨?_, ?_, ?_, ?_⟩
  · rw [useFrame_fov]; rfl
  · norm_num [lerp, startFov, endFov, frameEased, latchStartTime, progress, elapsedTime, eased]
  · rw [useFrame_fov]; rfl
  · norm_num [lerp, startFov, endFov, frameEased, latchStartTime, progress, elapsedTime, eased]

/-- C9: the frame callback on a missing container. With `containerRef.current`
`null`, `hasEnteredNeighborhood` `false` and the throttle interval elapsed, the
guarded reset of line 324 is skipped and the read `containerRef.current.rotation.y`
of line 332 throws; the camera is as before the frame. -/
theorem missing_container_frame_throws :
    useFrame Real.sin Real.cos false true 1000 100
        { (mountState sampleCamera : FrameState ℝ) with containerRef := none }
      = Outcome.threw
        ({ startTimeRef := some 1000, lastCameraUpdate := 100, containerRef := none
           camera := sampleCamera } : FrameState ℝ) := by
  have h : (CAMERA_UPDATE_INTERVAL : ℝ) ≤ 100 := by norm_num [CAMERA_UPDATE_INTERVAL]
  simp [useFrame, mountState, latchStartTime, h]

/-- C10 (amended). A frame callback evaluated while `hasEnteredNeighborhood` is
`false`, with the throttle interval elapsed and the container present with any
position and rotation, first resets the container to position `(0, 1, 0)` and
rotation `(0, 0, 0)` and then builds the offset on the rotation it has just
reset: the camera position after the frame is
`lerp((0, 3.4, -4), (2, 2.4, 1), eased)`, whatever the rotation was when the
frame began, and the look-at target is `lerp((0, 2, 0), (-0.5, 2.5, 0), eased)`;
at `eased = 1` they are exactly `(2, 2.4, 1)` and `(-0.5, 2.5, 0)`. -/
theorem outside_frame_pose (loading : Bool) (dateNow perfNow : ℝ) (st : FrameState ℝ)
    (c : Container ℝ) (hc : st.containerRef = some c)
    (hthr : perfNow - st.lastCameraUpdate ≥ CAMERA_UPDATE_INTERVAL) :
    ∃ st2, useFrame Real.sin Real.cos false loading dateNow perfNow st = Outcome.returned st2 ∧
      st2.containerRef = some
        { position := { x := 0, y := 1, z := 0 }, rotation := { x := 0, y := 0, z := 0 } } ∧
      st2.camera.position
        = Vec3.lerpVectors ({ x := 0, y := 17 / 5, z := -4 } : Vec3 ℝ) startPosition
          (frameEased st.startTimeRef dateNow) ∧
      st2.camera.lookAt
        = Vec3.lerpVectors ({ x := 0, y := 2, z := 0 } : Vec3 ℝ) startLookAt
          (frameEased st.startTimeRef dateNow) ∧
      (frameEased st.startTimeRef dateNow = 1 →
        st2.camera.position = { x := 2, y := 12 / 5, z := 1 } ∧
        st2.camera.lookAt = { x := -(1 / 2), y := 5 / 2, z := 0 }) := by
  have hrun : useFrame Real.sin Real.cos false loading dateNow perfNow st
      = Outcome.returned
        { startTimeRef := some (latchStartTime st.startTimeRef dateNow)
          lastCameraUpdate := perfNow
          containerRef := some
            { position := { x := 0, y := 1, z := 0 }, rotation := { x := 0, y := 0, z := 0 } }
          camera :=
            { position := Vec3.lerpVectors ({ x := 0, y := 17 / 5, z := -4 } : Vec3 ℝ)
                startPosition (frameEased st.startTimeRef dateNow)
              lookAt := Vec3.lerpVectors ({ x := 0, y := 2, z := 0 } : Vec3 ℝ) startLookAt
                (frameEased st.startTimeRef dateNow)
              fov := st.camera.fov } } := by
    simp [useFrame, hc, hthr, frameEased]
  refine ⟨_, hrun, rfl, rfl, rfl, ?_⟩
  intro h1
  simp [h1, Vec3.lerpVectors, startPosition, startLookAt]

/-- C10 (amended) on a container rotated by a quarter turn, one second after the
clock start. -/
theorem outside_frame_pose_witness :
    ∃ st2, useFrame Real.sin Real.cos false true 2000 100
        { startTimeRef := some 1000, lastCameraUpdate := 0
          containerRef := some
            { position := { x := 3, y := 1, z := 2 }
              rotation := { x := 0, y := Real.pi / 2, z := 0 } }
          camera := sampleCamera } = Outcome.returned st2 ∧
      st2.camera.position = { x := 2, y := 12 / 5, z := 1 } ∧
      st2.camera.lookAt = { x := -(1 / 2), y := 5 / 2, z := 0 } := by
  obtain ⟨st2, h, -, -, -, h1⟩ := outside_frame_pose true 2000 100
    { startTimeRef := some 1000, lastCameraUpdate := 0
      containerRef := some
        { position := { x := 3, y := 1, z := 2 }
          rotation := { x := 0, y := Real.pi / 2, z := 0 } }
      camera := sampleCamera } _ rfl (by norm_num [CAMERA_UPDATE_INTERVAL])
  exact ⟨st2, h, h1 (by norm_num [frameEased, latchStartTime, progress, elapsedTime, eased])⟩

/-- C10 as stated fails: with the container rotated by `π/2` about Y when the
frame begins, `hasEnteredNeighborhood` `false`, the throttle interval elapsed and
`eased = 0` (first frame), the camera position after the frame is `(0, 3.4, -4)`,
where `lerp((-4 sin θ, 3.4, -4 cos θ), (2, 2.4, 1), 0)` is `(-4, 3.4, 0)`. -/
theorem outside_offset_counterexample :
    (useFrame Real.sin Real.cos false true 1000 100
      { startTimeRef := none, lastCameraUpdate := 0
        containerRef := some
          { position := { x := 0, y := 1, z := 0 }
            rotation := { x := 0, y := Real.pi / 2, z := 0 } }
        camera := sampleCamera }).state.camera.position
      = { x := 0, y := 17 / 5, z := -4 } ∧
    Vec3.lerpVectors
        { x := -4 * Real.sin (Real.pi / 2), y := 17 / 5, z := -4 * Real.cos (Real.pi / 2) }
        startPosition (frameEased (none : Option ℝ) 1000)
      = { x := -4, y := 17 / 5, z := 0 } ∧
    ({ x := 0, y := 17 / 5, z := -4 } : Vec3 ℝ) ≠ { x := -4, y := 17 / 5, z := 0 } := by
  have h : (CAMERA_UPDATE_INTERVAL : ℝ) ≤ 100 := by norm_num [CAMERA_UPDATE_INTERVAL]
  refine ⟨?_, ?_, ?_⟩
  · simp [useFrame, h, Outcome.state, latchStartTime, progress, elapsedTime, eased,
      Vec3.lerpVectors]
  · simp [frameEased, latchStartTime, progress, elapsedTime, eased, Vec3.lerpVectors]
  · simp

section ClockTheorems

variable {α : Type} [LinearOrderedField α]

/-- C5 (amended). The clock's start time is latched by the first frame callback
of the session, in whatever entry state that frame runs, and no later frame or
entry changes it. With no frame evaluated before `t0`, the frame at `t0` computes
`eased = 0`. After a history of frames whose first ran at clock value `ts ≤ t0`
(not `0`), the start time is `ts`: the frame at `t0` computes `eased` of
`min((t0 - ts)/1000, 1)`, and a frame at `t0 + 1000` ms computes `eased = 1`
exactly. -/
theorem clock_latched_on_first_frame (sin cos : α → α) (first : FrameInput α)
    (rest : List (FrameInput α)) (st : FrameState α) (t0 : α)
    (hst : st.startTimeRef = none) (hfirst : first.dateNow ≠ 0) (hle : first.dateNow ≤ t0) :
    frameEased (runFrames sin cos [] st).startTimeRef t0 = 0 ∧
    (runFrames sin cos (first :: rest) st).startTimeRef = some first.dateNow ∧
    frameEased (runFrames sin cos (first :: rest) st).startTimeRef t0
      = eased (min ((t0 - first.dateNow) / 1000) 1) ∧
    frameEased (runFrames sin cos (first :: rest) st).startTimeRef (t0 + 1000) = 1 := by
  have hlatched : (runFrames sin cos (first :: rest) st).startTimeRef = some first.dateNow := by
    simp only [runFrames, List.foldl_cons]
    apply runFrames_startTimeRef_latched sin cos first.dateNow hfirst rest
    rw [useFrame_startTimeRef, hst]
    rfl
  refine ⟨?_, hlatched, ?_, ?_⟩
  · simp only [runFrames, List.foldl_nil, hst, frameEased, latchStartTime, progress,
      elapsedTime, sub_self, zero_div]
    rw [min_eq_left zero_le_one]
    exact eased_zero
  · rw [hlatched]
    simp only [frameEased, latchStartTime_latched _ _ hfirst, progress, elapsedTime]
  · rw [hlatched]
    simp only [frameEased, latchStartTime_latched _ _ hfirst, progress, elapsedTime]
    rw [min_eq_right]
    · exact eased_one
    · rw [le_div_iff₀ (by norm_num)]
      linarith

end ClockTheorems

/-- C5 (amended) on one frame evaluated outside at 1000 ms and an entry at 1250 ms. -/
theorem clock_latched_on_first_frame_witness :
    (runFrames Real.sin Real.cos
      [{ hasEnteredNeighborhood := false, isLoading := true, dateNow := 1000, perfNow := 100 }]
      (mountState sampleCamera : FrameState ℝ)).startTimeRef = some 1000 ∧
    frameEased (runFrames Real.sin Real.cos
      [{ hasEnteredNeighborhood := false, isLoading := true, dateNow := 1000, perfNow := 100 }]
      (mountState sampleCamera : FrameState ℝ)).startTimeRef 1250
        = eased (min (((1250 : ℝ) - 1000) / 1000) 1) :=
  ⟨(clock_latched_on_first_frame Real.sin Real.cos
      { hasEnteredNeighborhood := false, isLoading := true, dateNow := 1000, perfNow := 100 }
      [] (mountState sampleCamera : FrameState ℝ) 1250 rfl (by norm_num) (by norm_num)).2.1,
    (clock_latched_on_first_frame Real.sin Real.cos
      { hasEnteredNeighborhood := false, isLoading := true, dateNow := 1000, perfNow := 100 }
      [] (mountState sampleCamera : FrameState ℝ) 1250 rfl (by norm_num) (by norm_num)).2.2.1⟩

/-- C5 as stated fails: one frame is evaluated outside at 1000 ms, the entry state
changes to entered at `t0 = 3000` ms, and the first frame evaluated at `t0`
computes `eased = 1`, not `0`: the start time was latched at 1000 ms. -/
theorem easing_anchor_counterexample :
    (runFrames Real.sin Real.cos
      [{ hasEnteredNeighborhood := false, isLoading := true, dateNow := 1000, perfNow := 100 }]
      (mountState sampleCamera : FrameState ℝ)).startTimeRef = some 1000 ∧
    frameEased (runFrames Real.sin Real.cos
      [{ hasEnteredNeighborhood := false, isLoading := true, dateNow := 1000, perfNow := 100 }]
      (mountState sampleCamera : FrameState ℝ)).startTimeRef 3000 = 1 ∧
    frameEased (runFrames Real.sin Real.cos
      [{ hasEnteredNeighborhood := false, isLoading := true, dateNow := 1000, perfNow := 100 }]
      (mountState sampleCamera : FrameState ℝ)).startTimeRef 3000 ≠ 0 := by
  have h : (runFrames Real.sin Real.cos
      [{ hasEnteredNeighborhood := false, isLoading := true, dateNow := 1000, perfNow := 100 }]
      (mountState sampleCamera : FrameState ℝ)).startTimeRef = some 1000 := by
    simp only [runFrames, List.foldl_cons, List.foldl_nil]
    rw [useFrame_startTimeRef]
    simp [mountState, latchStartTime]
  have h1 : frameEased (some (1000 : ℝ)) 3000 = 1 := by
    norm_num [frameEased, latchStartTime, progress, elapsedTime, eased]
  rw [h]
  exact ⟨rfl, h1, by rw [h1]; norm_num⟩

end Scene
